import Mathlib

/-!
# Infobip API client: the MMS channel and the request/response handling contract

Shallow embedding of `pkg/infobip/mms/mms.go`.  The channel methods are state
transformers over an explicit program state: the world the request handler
acts on, the record of handler invocations, and the variables of type
`MMSMsg` (so that the by-value parameter of `SendMsg` and the pointer `&msg`
handed to the handler can be told apart from the caller's own variable).

The packages `internal` and `models` and the WhatsApp channel are not among
the sources; what the MMS channel needs of them is either a parameter
(`Models`, `HTTPHandler`) or modelled from the specification and marked so.
-/

namespace Infobip

/-! ## models -/

/-- Options of a delivery-report query (`models.OutboundMsgDeliveryReportsOpts`):
the three string fields read by `GetOutboundMsgDeliveryReports`. -/
structure OutboundMsgDeliveryReportsOpts where
  BulkID : String
  MessageID : String
  Limit : String
deriving DecidableEq, Repr, Inhabited

/-- Go `map[string]string` built by a literal with pairwise distinct keys: the
list of its entries; `List.lookup` reads a key, `keys` lists the keys. -/
abbrev Params := List (String × String)

/-- Keys present in a parameter map. -/
def Params.keys (p : Params) : List String := p.map Prod.fst

/-- Modelled from the spec: the raw HTTP response metadata (status code,
headers) kept inside Response Details; the test reads `HTTPResponse.StatusCode`. -/
structure HTTPResponse where
  StatusCode : Int
  Header : List (String × String)
deriving DecidableEq, Repr, Inhabited

/-- Modelled from the spec: the provider's service exception (message id,
human-readable text, optional field-level validation errors keyed by field path). -/
structure ServiceException where
  MessageID : String
  Text : String
  ValidationErrors : List (String × List String)
deriving DecidableEq, Repr, Inhabited

/-- Modelled from the spec: the standard error envelope
`requestError.serviceException` (`models.ErrorDetails`). -/
structure ErrorDetails where
  ServiceException : ServiceException
deriving DecidableEq, Repr, Inhabited

/-- Modelled from the spec: `models.ResponseDetails`, the raw HTTP response
paired with the error details; the test reads the fields `HTTPResponse` and
`ErrorResponse`.  Its zero value is `default`. -/
structure ResponseDetails where
  HTTPResponse : HTTPResponse
  ErrorResponse : ErrorDetails
deriving DecidableEq, Repr, Inhabited

/-- The types the channel code is parametric in, none of them declared in the
sources: `context.Context`, `models.MMSMsg`, `models.MMSResponse`,
`models.OutboundMMSDeliveryReportsResponse`, the dynamic type behind `error`,
and the world a request handler acts on (network, clock, its own fields).
`zeroMMSResponse` and `zeroReports` are the Go zero values of the two
response containers. -/
structure Models where
  Ctx : Type
  MMSMsg : Type
  MMSResponse : Type
  OutboundMMSDeliveryReportsResponse : Type
  Err : Type
  World : Type
  zeroMMSResponse : MMSResponse
  zeroReports : OutboundMMSDeliveryReportsResponse

/-! ## internal.HTTPHandler, as seen from the channel -/

/-- What a call of `PostMultipartReq(ctx, postResource, respResource, path)`
leaves behind: the contents of `*postResource` and `*respResource` after the
call, the two returned values, and the world after the call. -/
structure PostOutcome (M : Models) where
  postResource : M.MMSMsg
  respResource : M.MMSResponse
  respDetails : ResponseDetails
  err : Option M.Err
  world : M.World

/-- What a call of `GetRequest(ctx, respResource, path, params)` leaves
behind. -/
structure GetOutcome (M : Models) where
  respResource : M.OutboundMMSDeliveryReportsResponse
  respDetails : ResponseDetails
  err : Option M.Err
  world : M.World

/-- The two operations of `internal.HTTPHandler` used by the MMS channel.  A
handler is arbitrary: it reads and may overwrite the cells behind the
pointers it is given (their contents go in, their contents come out) and
acts on the world. -/
structure HTTPHandler (M : Models) where
  PostMultipartReq : M.Ctx → M.MMSMsg → M.MMSResponse → String → M.World → PostOutcome M
  GetRequest : M.Ctx → M.OutboundMMSDeliveryReportsResponse → String → Params → M.World →
    GetOutcome M

/-- One invocation of a handler operation, with the arguments it was given
(for a pointer argument, the contents of the cell at the time of the call). -/
inductive HandlerCall (M : Models) where
  | PostMultipartReq (ctx : M.Ctx) (postResource : M.MMSMsg) (respResource : M.MMSResponse)
      (path : String)
  | GetRequest (ctx : M.Ctx) (respResource : M.OutboundMMSDeliveryReportsResponse)
      (path : String) (params : Params)

/-! ## package mms -/

/-- The struct `Channel` (mms.go line 18). -/
structure Channel (M : Models) where
  ReqHandler : HTTPHandler M

/-- Program state around a call of a channel method: the channel `*mms`, the
world, the handler invocations made so far (oldest first), and the variables
of type `MMSMsg` by address, `next` being the first address not yet in use. -/
structure State (M : Models) where
  channel : Channel M
  world : M.World
  trace : List (HandlerCall M)
  msgVars : Nat → M.MMSMsg
  next : Nat

/-- The constant `sendMessagePath` (mms.go line 22). -/
def sendMessagePath : String := "/mms/1/single"

/-- The constant `getOutboundMsgDeliveryReportsPath` (mms.go line 23). -/
def getOutboundMsgDeliveryReportsPath : String := "/mms/1/reports"

/-- The three results of `SendMsg` and the state after the call. -/
structure SendMsgResult (M : Models) where
  msgResp : M.MMSResponse
  respDetails : ResponseDetails
  err : Option M.Err
  state : State M

/-- The three results of `GetOutboundMsgDeliveryReports` and the state after
the call. -/
structure ReportsResult (M : Models) where
  msgResp : M.OutboundMMSDeliveryReportsResponse
  respDetails : ResponseDetails
  err : Option M.Err
  state : State M

/-- The call expression `mms.ReqHandler.PostMultipartReq(ctx, postResource,
respResource, path)` evaluated in state `s`: the handler held by the channel
is applied once, to the world of `s`; the state after has the world the
handler left and the invocation appended to the record.  The outcome carries
the contents the handler left behind the two pointers. -/
def State.callPostMultipartReq {M : Models} (s : State M) (ctx : M.Ctx)
    (postResource : M.MMSMsg) (respResource : M.MMSResponse) (path : String) :
    PostOutcome M × State M :=
  let o := s.channel.ReqHandler.PostMultipartReq ctx postResource respResource path s.world
  (o, { s with
        world := o.world
        trace := s.trace ++ [HandlerCall.PostMultipartReq ctx postResource respResource path] })

/-- The call expression `mms.ReqHandler.GetRequest(ctx, respResource, path,
params)` evaluated in state `s`, as for `callPostMultipartReq`. -/
def State.callGetRequest {M : Models} (s : State M) (ctx : M.Ctx)
    (respResource : M.OutboundMMSDeliveryReportsResponse) (path : String) (params : Params) :
    GetOutcome M × State M :=
  let o := s.channel.ReqHandler.GetRequest ctx respResource path params s.world
  (o, { s with
        world := o.world
        trace := s.trace ++ [HandlerCall.GetRequest ctx respResource path params] })

/-- The method `(*Channel).SendMsg` (mms.go lines 25-31).  The parameter `msg` is a fresh
variable (at address `s.next`) holding a copy of the argument; the named
result `msgResp` starts as the zero value; line 29 is one call of
`PostMultipartReq` with `&msg`, `&msgResp` and `sendMessagePath`, and what the
handler wrote through `&msg` lands in the parameter variable; line 30 returns
`msgResp` as the handler left it, and the handler's two results. -/
def Channel.SendMsg {M : Models} (s : State M) (ctx : M.Ctx) (msg : M.MMSMsg) :
    SendMsgResult M :=
  let p := s.next
  let s1 : State M := { s with msgVars := Function.update s.msgVars p msg, next := p + 1 }
  let msgResp := M.zeroMMSResponse
  let call := s1.callPostMultipartReq ctx (s1.msgVars p) msgResp sendMessagePath
  { msgResp := call.1.respResource
    respDetails := call.1.respDetails
    err := call.1.err
    state := { call.2 with msgVars := Function.update call.2.msgVars p call.1.postResource } }

/-- The map literal of mms.go line 37. -/
def reportParams (opts : OutboundMsgDeliveryReportsOpts) : Params :=
  [("bulkId", opts.BulkID), ("messageId", opts.MessageID), ("limit", opts.Limit)]

/-- The method `(*Channel).GetOutboundMsgDeliveryReports` (mms.go lines 33-40): the map
literal of line 37, one call of `GetRequest` with `&msgResp`, the path
constant and the map (line 38), and the return of `msgResp` as the handler
left it with the handler's two results (line 39). -/
def Channel.GetOutboundMsgDeliveryReports {M : Models} (s : State M) (ctx : M.Ctx)
    (opts : OutboundMsgDeliveryReportsOpts) : ReportsResult M :=
  let msgResp := M.zeroReports
  let params := reportParams opts
  let call := s.callGetRequest ctx msgResp getOutboundMsgDeliveryReportsPath params
  { msgResp := call.1.respResource
    respDetails := call.1.respDetails
    err := call.1.err
    state := call.2 }

/-! ## The Request Handler and the WhatsApp channel, from the specification

Neither `internal.HTTPHandler` nor `whatsAppChannel` is among the sources; the
definitions below follow sections 4.1, 4.2 and 7 of the specification.  The
HTTP client, the encoders and the decoders are external and stay parameters. -/

/-- Modelled from the spec: an outgoing HTTP request of the Request Handler
(method, `baseURL + path`, query parameters, headers, encoded body). -/
structure HTTPRequest where
  Method : String
  URL : String
  Query : List (String × String)
  Header : List (String × String)
  Body : String
deriving DecidableEq, Repr, Inhabited

/-- Modelled from the spec: what the endpoint sends back, the raw response
metadata and the body that was read. -/
structure HTTPReply where
  response : HTTPResponse
  body : String
deriving DecidableEq, Repr, Inhabited

/-- Modelled from the spec: the Request Handler's shared configuration (base
URL, API key, underlying HTTP client).  `httpClient ctx req w` performs the
network call in world `w`: it yields the reply, or the transport error (DNS,
connection refused, timeout, cancellation of `ctx`), and the world after. -/
structure httpHandler (Ctx Err World : Type) where
  httpClient : Ctx → HTTPRequest → World → Except Err HTTPReply × World
  baseURL : String
  apiKey : String

/-- Modelled from the spec: serialisation of a request body and
deserialisation of a response body into a container; both can fail. -/
structure Codec (Err Req Resp : Type) where
  marshal : Req → Except Err String
  unmarshal : String → Resp → Except Err Resp

/-- Modelled from the spec: what a Request Handler operation returns, the
response container after the call, the Response Details, the hard error if
any, and the world after the call. -/
structure Outcome (Err World Resp : Type) where
  respResource : Resp
  respDetails : ResponseDetails
  err : Option Err
  world : World

/-- Modelled from the spec: the success range of status codes (200-299). -/
def isSuccess (status : Int) : Bool := decide (200 ≤ status) && decide (status ≤ 299)

/-- Modelled from the spec: classification of a received reply (section 4.1).
In the success range the body is deserialised into the response container and
the error details stay empty; otherwise it is deserialised into Error Details,
returned inside Response Details with the raw HTTP response attached.  A
decoding failure is a hard error and no partial Response Details is returned
(section 7). -/
def classify {Err Resp : Type} (unmarshal : String → Resp → Except Err Resp)
    (unmarshalError : String → ErrorDetails → Except Err ErrorDetails)
    (reply : HTTPReply) (respResource : Resp) : Resp × ResponseDetails × Option Err :=
  if isSuccess reply.response.StatusCode then
    match unmarshal reply.body respResource with
    | Except.ok r => (r, { HTTPResponse := reply.response, ErrorResponse := default }, none)
    | Except.error e => (respResource, default, some e)
  else
    match unmarshalError reply.body default with
    | Except.ok d => (respResource, { HTTPResponse := reply.response, ErrorResponse := d }, none)
    | Except.error e => (respResource, default, some e)

/-- Modelled from the spec: dispatch of a built request and classification of
the reply; a transport error is a hard error with empty Response Details. -/
def httpHandler.dispatch {Ctx Err World Resp : Type} (h : httpHandler Ctx Err World)
    (unmarshal : String → Resp → Except Err Resp)
    (unmarshalError : String → ErrorDetails → Except Err ErrorDetails)
    (ctx : Ctx) (req : HTTPRequest) (respResource : Resp) (w : World) :
    Outcome Err World Resp :=
  match h.httpClient ctx req w with
  | (Except.error e, w1) =>
    { respResource := respResource, respDetails := default, err := some e, world := w1 }
  | (Except.ok reply, w1) =>
    let c := classify unmarshal unmarshalError reply respResource
    { respResource := c.1, respDetails := c.2.1, err := c.2.2, world := w1 }

/-- Modelled from the spec: the request of "Send JSON request", a POST to
`baseURL + path` carrying the API key and a JSON body. -/
def httpHandler.jsonRequest {Ctx Err World : Type} (h : httpHandler Ctx Err World)
    (path payload : String) : HTTPRequest :=
  { Method := "POST", URL := h.baseURL ++ path, Query := [],
    Header := [("Authorization", "App " ++ h.apiKey), ("Content-Type", "application/json")],
    Body := payload }

/-- Modelled from the spec: the request of "Send multipart request", the same
with a multipart form body. -/
def httpHandler.multipartRequest {Ctx Err World : Type} (h : httpHandler Ctx Err World)
    (path payload : String) : HTTPRequest :=
  { Method := "POST", URL := h.baseURL ++ path, Query := [],
    Header := [("Authorization", "App " ++ h.apiKey), ("Content-Type", "multipart/form-data")],
    Body := payload }

/-- Modelled from the spec: the request of "Get request", a GET whose query
carries the parameters with a non-empty value. -/
def httpHandler.queryRequest {Ctx Err World : Type} (h : httpHandler Ctx Err World)
    (path : String) (params : Params) : HTTPRequest :=
  { Method := "GET", URL := h.baseURL ++ path, Query := params.filter (fun kv => kv.2 != ""),
    Header := [("Authorization", "App " ++ h.apiKey)], Body := "" }

/-- Modelled from the spec: "Send JSON request(context, requestBody,
responseContainer, path)" of section 4.1; an encoding failure is a hard error
and nothing is sent. -/
def httpHandler.postJSONReq {Ctx Err World Req Resp : Type} (h : httpHandler Ctx Err World)
    (codec : Codec Err Req Resp)
    (unmarshalError : String → ErrorDetails → Except Err ErrorDetails)
    (ctx : Ctx) (requestBody : Req) (respResource : Resp) (path : String) (w : World) :
    Outcome Err World Resp :=
  match codec.marshal requestBody with
  | Except.error e =>
    { respResource := respResource, respDetails := default, err := some e, world := w }
  | Except.ok payload =>
    h.dispatch codec.unmarshal unmarshalError ctx (h.jsonRequest path payload) respResource w

/-- Modelled from the spec: "Send multipart request(context, requestBody,
responseContainer, path)" of section 4.1, the same contract with the request
body encoded as a multipart form. -/
def httpHandler.postMultipartReq {Ctx Err World Req Resp : Type} (h : httpHandler Ctx Err World)
    (codec : Codec Err Req Resp)
    (unmarshalError : String → ErrorDetails → Except Err ErrorDetails)
    (ctx : Ctx) (requestBody : Req) (respResource : Resp) (path : String) (w : World) :
    Outcome Err World Resp :=
  match codec.marshal requestBody with
  | Except.error e =>
    { respResource := respResource, respDetails := default, err := some e, world := w }
  | Except.ok payload =>
    h.dispatch codec.unmarshal unmarshalError ctx (h.multipartRequest path payload)
      respResource w

/-- Modelled from the spec: "Get request(context, responseContainer, path,
queryParams)" of section 4.1. -/
def httpHandler.getRequest {Ctx Err World Resp : Type} (h : httpHandler Ctx Err World)
    (unmarshal : String → Resp → Except Err Resp)
    (unmarshalError : String → ErrorDetails → Except Err ErrorDetails)
    (ctx : Ctx) (respResource : Resp) (path : String) (params : Params) (w : World) :
    Outcome Err World Resp :=
  h.dispatch unmarshal unmarshalError ctx (h.queryRequest path params) respResource w

/-- Modelled from the spec: the encoders and decoders the Request Handler
needs for the MMS channel's payload types. -/
structure MMSWire (M : Models) where
  msg : Codec M.Err M.MMSMsg M.MMSResponse
  unmarshalReports : String → M.OutboundMMSDeliveryReportsResponse →
    Except M.Err M.OutboundMMSDeliveryReportsResponse
  unmarshalError : String → ErrorDetails → Except M.Err ErrorDetails

/-- Modelled from the spec: the Request Handler of section 4.1 as the
`internal.HTTPHandler` the MMS channel holds.  It never writes through the
request pointer. -/
def httpHandler.forMMS {M : Models} (h : httpHandler M.Ctx M.Err M.World) (wire : MMSWire M) :
    HTTPHandler M :=
  { PostMultipartReq := fun ctx postResource respResource path w =>
      let o := h.postMultipartReq wire.msg wire.unmarshalError ctx postResource respResource
        path w
      { postResource := postResource, respResource := o.respResource,
        respDetails := o.respDetails, err := o.err, world := o.world }
    GetRequest := fun ctx respResource path params w =>
      let o := h.getRequest wire.unmarshalReports wire.unmarshalError ctx respResource path
        params w
      { respResource := o.respResource, respDetails := o.respDetails, err := o.err,
        world := o.world } }

/-- Modelled from the spec: the struct `whatsAppChannel` of the test, a
channel client holding the Request Handler. -/
structure whatsAppChannel (Ctx Err World : Type) where
  reqHandler : httpHandler Ctx Err World

/-- Modelled from the spec: what the WhatsApp channel is parametric in, the
message and response types (`models.ContactMessage`, `models.MessageResponse`
with its zero value), structural validation of a message, the codec, the
decoder of error bodies and the path constant `sendContactPath`. -/
structure ContactWire (Err Msg Resp : Type) where
  validate : Msg → Option Err
  codec : Codec Err Msg Resp
  unmarshalError : String → ErrorDetails → Except Err ErrorDetails
  zeroResponse : Resp
  sendContactPath : String

/-- Modelled from the spec: `whatsAppChannel.SendContactMessage`, a channel
method as section 4.2 describes it: (1) structural validation, failing at once
with the validation error and no network call; (2) delegation to the Request
Handler with the fixed path and the typed containers; (3) the handler's
results returned unmodified. -/
def whatsAppChannel.SendContactMessage {Ctx Err World Msg Resp : Type}
    (whatsApp : whatsAppChannel Ctx Err World) (wire : ContactWire Err Msg Resp)
    (ctx : Ctx) (msg : Msg) (w : World) : Outcome Err World Resp :=
  match wire.validate msg with
  | some e =>
    { respResource := wire.zeroResponse, respDetails := default, err := some e, world := w }
  | none =>
    whatsApp.reqHandler.postJSONReq wire.codec wire.unmarshalError ctx msg wire.zeroResponse
      wire.sendContactPath w

/-! ## Observations on a state -/

/-- Number of `PostMultipartReq` invocations recorded in a trace. -/
def postMultipartCalls {M : Models} : List (HandlerCall M) → Nat
  | [] => 0
  | HandlerCall.PostMultipartReq _ _ _ _ :: rest => postMultipartCalls rest + 1
  | HandlerCall.GetRequest _ _ _ _ :: rest => postMultipartCalls rest

/-! ## A concrete instance -/

/-- Instance of the parameters used to evaluate the definitions: messages,
responses and errors are strings, the reports response is a list of strings,
the world counts the network calls made so far. -/
def exampleModels : Models :=
  { Ctx := Unit, MMSMsg := String, MMSResponse := String,
    OutboundMMSDeliveryReportsResponse := List String, Err := String, World := Nat,
    zeroMMSResponse := "", zeroReports := [] }

/-- Structural validation of the instance: the message must not be empty. -/
def exampleValidate : exampleModels.MMSMsg → Option exampleModels.Err :=
  fun (m : String) => if m = "" then some "validation: message is required" else none

/-- A handler of the instance that validates before it sends: an empty message
is rejected without a network call, any other message costs one network call
and is acknowledged with status 200. -/
def exampleValidatingHandler : HTTPHandler exampleModels :=
  { PostMultipartReq := fun _ (m : String) (r : String) _ (w : Nat) =>
      match exampleValidate m with
      | some e =>
        { postResource := m, respResource := r, respDetails := default, err := some e,
          world := w }
      | none =>
        { postResource := m, respResource := "accepted",
          respDetails := { HTTPResponse := { StatusCode := 200, Header := [] },
                           ErrorResponse := default },
          err := none, world := w + 1 }
    GetRequest := fun _ (r : List String) _ _ (w : Nat) =>
      { respResource := r, respDetails := default, err := none, world := w + 1 } }

/-- A handler of the instance that overwrites the request it is pointed to. -/
def exampleScribblingHandler : HTTPHandler exampleModels :=
  { PostMultipartReq := fun _ (_ : String) (_ : String) _ (w : Nat) =>
      { postResource := "overwritten", respResource := "accepted", respDetails := default,
        err := none, world := w + 1 }
    GetRequest := fun _ (r : List String) _ _ (w : Nat) =>
      { respResource := r, respDetails := default, err := none, world := w + 1 } }

/-- Initial state of the instance around a given handler: nothing sent, no
invocation recorded, one variable of type `MMSMsg` (address 0) holding `msg`. -/
def exampleState (h : HTTPHandler exampleModels) (msg : String) : State exampleModels :=
  { channel := { ReqHandler := h }, world := (0 : Nat), trace := [],
    msgVars := fun _ => msg, next := 1 }

/-- HTTP client of the instance: the endpoint answers every request with the
given status and body. -/
def exampleClient (status : Int) (body : String) :
    Unit → HTTPRequest → Nat → Except String HTTPReply × Nat :=
  fun _ _ w => (Except.ok { response := { StatusCode := status, Header := [] }, body := body },
    w + 1)

/-- HTTP client of the instance whose network call cannot complete. -/
def exampleDeadClient : Unit → HTTPRequest → Nat → Except String HTTPReply × Nat :=
  fun _ _ w => (Except.error "connection refused", w + 1)

/-- Request Handler of the instance around a client. -/
def exampleHTTPHandler (client : Unit → HTTPRequest → Nat → Except String HTTPReply × Nat) :
    httpHandler Unit String Nat :=
  { httpClient := client, baseURL := "https://example.api.infobip.com", apiKey := "secret" }

/-- Decoder of error bodies of the instance: the body is the text of the
service exception. -/
def exampleUnmarshalError : String → ErrorDetails → Except String ErrorDetails :=
  fun body _ =>
    Except.ok { ServiceException := { MessageID := "BAD_REQUEST", Text := body,
                                      ValidationErrors := [] } }

/-- Codec of the instance: a message is its own encoding and a response is the
body received. -/
def exampleCodec : Codec String String String :=
  { marshal := fun m => Except.ok m, unmarshal := fun body _ => Except.ok body }

/-- Encoders and decoders of the instance for the MMS payload types. -/
def exampleMMSWire : MMSWire exampleModels :=
  { msg := exampleCodec
    unmarshalReports := fun (body : String) (_ : List String) => Except.ok [body]
    unmarshalError := exampleUnmarshalError }

/-- Parameters of the WhatsApp channel of the instance. -/
def exampleContactWire : ContactWire String String String :=
  { validate := fun m => if m = "" then some "validation: name is required" else none
    codec := exampleCodec
    unmarshalError := exampleUnmarshalError
    zeroResponse := ""
    sendContactPath := "/whatsapp/1/message/contact" }

/-- State of the instance whose channel holds the Request Handler of the
specification around a client. -/
def exampleSpecState (client : Unit → HTTPRequest → Nat → Except String HTTPReply × Nat) :
    State exampleModels :=
  exampleState ((exampleHTTPHandler client).forMMS exampleMMSWire) "hello"

/-! ## Theorems: the MMS channel as written -/

/-- C2: for every request handler, context and message, `SendMsg` returns what
the handler's `PostMultipartReq` returns when called with that context, the
message, the zero-valued `MMSResponse` container and the path "/mms/1/single":
the Response Details and the error are the handler's, the returned response
is the container as the handler left it. -/
theorem SendMsg_returns_handler_results (M : Models) (s : State M) (ctx : M.Ctx)
    (msg : M.MMSMsg) :
    (Channel.SendMsg s ctx msg).msgResp =
        (s.channel.ReqHandler.PostMultipartReq ctx msg M.zeroMMSResponse "/mms/1/single"
          s.world).respResource ∧
    (Channel.SendMsg s ctx msg).respDetails =
        (s.channel.ReqHandler.PostMultipartReq ctx msg M.zeroMMSResponse "/mms/1/single"
          s.world).respDetails ∧
    (Channel.SendMsg s ctx msg).err =
        (s.channel.ReqHandler.PostMultipartReq ctx msg M.zeroMMSResponse "/mms/1/single"
          s.world).err := by
  simp [Channel.SendMsg, State.callPostMultipartReq, sendMessagePath]

/-- C3: for every request handler, context and options,
`GetOutboundMsgDeliveryReports` returns what the handler's `GetRequest`
returns when called with that context, the zero-valued response container, the
path "/mms/1/reports" and the parameters built from the options. -/
theorem GetOutboundMsgDeliveryReports_returns_handler_results (M : Models) (s : State M)
    (ctx : M.Ctx) (opts : OutboundMsgDeliveryReportsOpts) :
    (Channel.GetOutboundMsgDeliveryReports s ctx opts).msgResp =
        (s.channel.ReqHandler.GetRequest ctx M.zeroReports "/mms/1/reports"
          [("bulkId", opts.BulkID), ("messageId", opts.MessageID), ("limit", opts.Limit)]
          s.world).respResource ∧
    (Channel.GetOutboundMsgDeliveryReports s ctx opts).respDetails =
        (s.channel.ReqHandler.GetRequest ctx M.zeroReports "/mms/1/reports"
          [("bulkId", opts.BulkID), ("messageId", opts.MessageID), ("limit", opts.Limit)]
          s.world).respDetails ∧
    (Channel.GetOutboundMsgDeliveryReports s ctx opts).err =
        (s.channel.ReqHandler.GetRequest ctx M.zeroReports "/mms/1/reports"
          [("bulkId", opts.BulkID), ("messageId", opts.MessageID), ("limit", opts.Limit)]
          s.world).err := by
  simp [Channel.GetOutboundMsgDeliveryReports, State.callGetRequest,
    getOutboundMsgDeliveryReportsPath, reportParams]

/-- C10: no retry.  For every handler, whatever it returns (success, API
error data or hard error), one call of `SendMsg` is exactly one application
of `PostMultipartReq`: the three results and the world after the call are
those of a single application to the world before the call, and the record
of invocations grows by that one `PostMultipartReq` and nothing else.
Likewise one call of `GetOutboundMsgDeliveryReports` is exactly one
application of `GetRequest`. -/
theorem channel_methods_invoke_handler_exactly_once (M : Models) (s : State M) (ctx : M.Ctx)
    (msg : M.MMSMsg) (opts : OutboundMsgDeliveryReportsOpts) :
    ((Channel.SendMsg s ctx msg).msgResp =
        (s.channel.ReqHandler.PostMultipartReq ctx msg M.zeroMMSResponse "/mms/1/single"
          s.world).respResource ∧
      (Channel.SendMsg s ctx msg).respDetails =
        (s.channel.ReqHandler.PostMultipartReq ctx msg M.zeroMMSResponse "/mms/1/single"
          s.world).respDetails ∧
      (Channel.SendMsg s ctx msg).err =
        (s.channel.ReqHandler.PostMultipartReq ctx msg M.zeroMMSResponse "/mms/1/single"
          s.world).err ∧
      (Channel.SendMsg s ctx msg).state.world =
        (s.channel.ReqHandler.PostMultipartReq ctx msg M.zeroMMSResponse "/mms/1/single"
          s.world).world ∧
      (Channel.SendMsg s ctx msg).state.trace =
        s.trace ++ [HandlerCall.PostMultipartReq ctx msg M.zeroMMSResponse "/mms/1/single"] ∧
      (Channel.SendMsg s ctx msg).state.trace.length = s.trace.length + 1) ∧
    ((Channel.GetOutboundMsgDeliveryReports s ctx opts).msgResp =
        (s.channel.ReqHandler.GetRequest ctx M.zeroReports "/mms/1/reports"
          [("bulkId", opts.BulkID), ("messageId", opts.MessageID), ("limit", opts.Limit)]
          s.world).respResource ∧
      (Channel.GetOutboundMsgDeliveryReports s ctx opts).respDetails =
        (s.channel.ReqHandler.GetRequest ctx M.zeroReports "/mms/1/reports"
          [("bulkId", opts.BulkID), ("messageId", opts.MessageID), ("limit", opts.Limit)]
          s.world).respDetails ∧
      (Channel.GetOutboundMsgDeliveryReports s ctx opts).err =
        (s.channel.ReqHandler.GetRequest ctx M.zeroReports "/mms/1/reports"
          [("bulkId", opts.BulkID), ("messageId", opts.MessageID), ("limit", opts.Limit)]
          s.world).err ∧
      (Channel.GetOutboundMsgDeliveryReports s ctx opts).state.world =
        (s.channel.ReqHandler.GetRequest ctx M.zeroReports "/mms/1/reports"
          [("bulkId", opts.BulkID), ("messageId", opts.MessageID), ("limit", opts.Limit)]
          s.world).world ∧
      (Channel.GetOutboundMsgDeliveryReports s ctx opts).state.trace =
        s.trace ++ [HandlerCall.GetRequest ctx M.zeroReports "/mms/1/reports"
          [("bulkId", opts.BulkID), ("messageId", opts.MessageID), ("limit", opts.Limit)]] ∧
      (Channel.GetOutboundMsgDeliveryReports s ctx opts).state.trace.length =
        s.trace.length + 1) := by
  constructor
  · simp [Channel.SendMsg, State.callPostMultipartReq, sendMessagePath]
  · simp [Channel.GetOutboundMsgDeliveryReports, State.callGetRequest,
      getOutboundMsgDeliveryReportsPath, reportParams]

/-- The count of `PostMultipartReq` invocations of a trace extended by one
such invocation. -/
theorem postMultipartCalls_append_post {M : Models} (tr : List (HandlerCall M)) (ctx : M.Ctx)
    (m : M.MMSMsg) (r : M.MMSResponse) (path : String) :
    postMultipartCalls (tr ++ [HandlerCall.PostMultipartReq ctx m r path]) =
      postMultipartCalls tr + 1 := by
  induction tr with
  | nil => rfl
  | cons c rest ih =>
    cases c with
    | PostMultipartReq _ _ _ _ =>
      show postMultipartCalls (rest ++ _) + 1 = postMultipartCalls rest + 1 + 1
      rw [ih]
    | GetRequest _ _ _ _ =>
      show postMultipartCalls (rest ++ _) = postMultipartCalls rest + 1
      exact ih

/-- C1, as stated, fails: the empty message fails validation, yet `SendMsg`
invokes `PostMultipartReq` (the record goes from no invocation to one, also
around a handler that validates); and around the Request Handler of the
specification the call does not fail at all: the message goes out in one
network call (the world counts from 0 to 1) and the reply is returned with a
nil error. -/
theorem SendMsg_invalid_msg_invokes_handler :
    exampleValidate "" = some "validation: message is required" ∧
    postMultipartCalls (exampleState exampleValidatingHandler "").trace = 0 ∧
    postMultipartCalls
      (Channel.SendMsg (exampleState exampleValidatingHandler "") () "").state.trace = 1 ∧
    (exampleState ((exampleHTTPHandler (exampleClient 200 "PENDING_ENROUTE")).forMMS
      exampleMMSWire) "").world = (0 : Nat) ∧
    (Channel.SendMsg (exampleState ((exampleHTTPHandler (exampleClient 200
      "PENDING_ENROUTE")).forMMS exampleMMSWire) "") () "").err = none ∧
    (Channel.SendMsg (exampleState ((exampleHTTPHandler (exampleClient 200
      "PENDING_ENROUTE")).forMMS exampleMMSWire) "") () "").msgResp = "PENDING_ENROUTE" ∧
    (Channel.SendMsg (exampleState ((exampleHTTPHandler (exampleClient 200
      "PENDING_ENROUTE")).forMMS exampleMMSWire) "") () "").state.world = (1 : Nat) :=
  ⟨rfl, rfl, rfl, rfl, rfl, rfl, rfl⟩

/-- C1, amended: `SendMsg` does no validation of its own.  For every handler
and every message that fails structural validation, the call is exactly one
application of `PostMultipartReq` to the message, the zero container and
"/mms/1/single": the three results and the world after the call are those of
that single application, which is recorded as the one invocation made.  So
the call fails with a validation error, and without a network call, exactly
when the handler's `PostMultipartReq` does. -/
theorem SendMsg_invalid_msg_is_one_handler_call (M : Models)
    (validate : M.MMSMsg → Option M.Err) (s : State M) (ctx : M.Ctx) (msg : M.MMSMsg)
    (e : M.Err) (hinvalid : validate msg = some e) :
    (Channel.SendMsg s ctx msg).msgResp =
      (s.channel.ReqHandler.PostMultipartReq ctx msg M.zeroMMSResponse "/mms/1/single"
        s.world).respResource ∧
    (Channel.SendMsg s ctx msg).respDetails =
      (s.channel.ReqHandler.PostMultipartReq ctx msg M.zeroMMSResponse "/mms/1/single"
        s.world).respDetails ∧
    (Channel.SendMsg s ctx msg).err =
      (s.channel.ReqHandler.PostMultipartReq ctx msg M.zeroMMSResponse "/mms/1/single"
        s.world).err ∧
    (Channel.SendMsg s ctx msg).state.world =
      (s.channel.ReqHandler.PostMultipartReq ctx msg M.zeroMMSResponse "/mms/1/single"
        s.world).world ∧
    (Channel.SendMsg s ctx msg).state.trace =
      s.trace ++ [HandlerCall.PostMultipartReq ctx msg M.zeroMMSResponse "/mms/1/single"] ∧
    postMultipartCalls (Channel.SendMsg s ctx msg).state.trace =
      postMultipartCalls s.trace + 1 ∧
    ((Channel.SendMsg s ctx msg).err = validate msg ↔
      (s.channel.ReqHandler.PostMultipartReq ctx msg M.zeroMMSResponse "/mms/1/single"
        s.world).err = some e) ∧
    ((Channel.SendMsg s ctx msg).state.world = s.world ↔
      (s.channel.ReqHandler.PostMultipartReq ctx msg M.zeroMMSResponse "/mms/1/single"
        s.world).world = s.world) := by
  have herr : (Channel.SendMsg s ctx msg).err =
      (s.channel.ReqHandler.PostMultipartReq ctx msg M.zeroMMSResponse "/mms/1/single"
        s.world).err := by
    simp [Channel.SendMsg, State.callPostMultipartReq, sendMessagePath]
  have hworld : (Channel.SendMsg s ctx msg).state.world =
      (s.channel.ReqHandler.PostMultipartReq ctx msg M.zeroMMSResponse "/mms/1/single"
        s.world).world := by
    simp [Channel.SendMsg, State.callPostMultipartReq, sendMessagePath]
  have htrace : (Channel.SendMsg s ctx msg).state.trace =
      s.trace ++ [HandlerCall.PostMultipartReq ctx msg M.zeroMMSResponse "/mms/1/single"] := by
    simp [Channel.SendMsg, State.callPostMultipartReq, sendMessagePath]
  refine ⟨?_, ?_, herr, hworld, htrace, ?_, ?_, ?_⟩
  · simp [Channel.SendMsg, State.callPostMultipartReq, sendMessagePath]
  · simp [Channel.SendMsg, State.callPostMultipartReq, sendMessagePath]
  · rw [htrace]
    exact postMultipartCalls_append_post _ _ _ _ _
  · rw [herr, hinvalid]
  · rw [hworld]

/-- Witness of the amended C1: the empty message, which fails the validation
of the instance, around the handler of the instance that validates; the call
returns the handler's validation error, the world is as before, and the one
invocation is on record. -/
theorem SendMsg_invalid_msg_is_one_handler_call_witness :
    exampleValidate "" = some "validation: message is required" ∧
    (Channel.SendMsg (exampleState exampleValidatingHandler "") () "").err =
      (exampleValidatingHandler.PostMultipartReq () "" "" "/mms/1/single" (0 : Nat)).err ∧
    (Channel.SendMsg (exampleState exampleValidatingHandler "") () "").err =
      some "validation: message is required" ∧
    (Channel.SendMsg (exampleState exampleValidatingHandler "") () "").state.world = (0 : Nat) ∧
    postMultipartCalls
      (Channel.SendMsg (exampleState exampleValidatingHandler "") () "").state.trace =
      postMultipartCalls (exampleState exampleValidatingHandler "").trace + 1 :=
  have key := SendMsg_invalid_msg_is_one_handler_call exampleModels exampleValidate
    (exampleState exampleValidatingHandler "") () "" "validation: message is required" rfl
  ⟨rfl, key.2.2.1, rfl, rfl, key.2.2.2.2.2.1⟩

/-- C4, as stated, fails: with all three options empty the parameters handed
to `GetRequest` still hold the keys `bulkId`, `messageId` and `limit`, each
bound to the empty string. -/
theorem GetOutboundMsgDeliveryReports_keeps_empty_params :
    (Channel.GetOutboundMsgDeliveryReports (exampleState exampleValidatingHandler "") ()
        { BulkID := "", MessageID := "", Limit := "" }).state.trace =
      [HandlerCall.GetRequest () [] "/mms/1/reports"
        [("bulkId", ""), ("messageId", ""), ("limit", "")]] ∧
    "bulkId" ∈ Params.keys [("bulkId", ""), ("messageId", ""), ("limit", "")] ∧
    "messageId" ∈ Params.keys [("bulkId", ""), ("messageId", ""), ("limit", "")] ∧
    "limit" ∈ Params.keys [("bulkId", ""), ("messageId", ""), ("limit", "")] :=
  ⟨rfl, by decide, by decide, by decide⟩

/-- C4, amended: the parameters `GetOutboundMsgDeliveryReports` constructs and
hands to `GetRequest` always hold exactly the keys `bulkId`, `messageId` and
`limit`, each bound to the option's value verbatim, the empty string
included; the method omits nothing. -/
theorem GetOutboundMsgDeliveryReports_params_always_three (M : Models) (s : State M)
    (ctx : M.Ctx) (opts : OutboundMsgDeliveryReportsOpts) :
    ∃ params : Params,
      (Channel.GetOutboundMsgDeliveryReports s ctx opts).state.trace =
        s.trace ++ [HandlerCall.GetRequest ctx M.zeroReports "/mms/1/reports" params] ∧
      params.keys = ["bulkId", "messageId", "limit"] ∧
      params.lookup "bulkId" = some opts.BulkID ∧
      params.lookup "messageId" = some opts.MessageID ∧
      params.lookup "limit" = some opts.Limit :=
  ⟨reportParams opts, rfl, rfl, rfl, rfl, rfl⟩

/-- C5: the parameters `GetOutboundMsgDeliveryReports` constructs include
every non-empty option verbatim under its key (`bulkId`, `messageId`,
`limit`), and hold no key other than these three. -/
theorem GetOutboundMsgDeliveryReports_params_verbatim (M : Models) (s : State M)
    (ctx : M.Ctx) (opts : OutboundMsgDeliveryReportsOpts) :
    ∃ params : Params,
      (Channel.GetOutboundMsgDeliveryReports s ctx opts).state.trace =
        s.trace ++ [HandlerCall.GetRequest ctx M.zeroReports "/mms/1/reports" params] ∧
      (opts.BulkID ≠ "" → params.lookup "bulkId" = some opts.BulkID) ∧
      (opts.MessageID ≠ "" → params.lookup "messageId" = some opts.MessageID) ∧
      (opts.Limit ≠ "" → params.lookup "limit" = some opts.Limit) ∧
      ∀ k, k ∈ params.keys → k = "bulkId" ∨ k = "messageId" ∨ k = "limit" := by
  refine ⟨reportParams opts, rfl, fun _ => rfl, fun _ => rfl, fun _ => rfl, ?_⟩
  intro k hk
  simpa [reportParams, Params.keys] using hk

/-- Witness of C5: all three options set. -/
theorem GetOutboundMsgDeliveryReports_params_verbatim_witness :
    ("b-1" : String) ≠ "" ∧ ("m-1" : String) ≠ "" ∧ ("10" : String) ≠ "" ∧
    ∃ params : Params,
      (Channel.GetOutboundMsgDeliveryReports (exampleState exampleValidatingHandler "") ()
          { BulkID := "b-1", MessageID := "m-1", Limit := "10" }).state.trace =
        (exampleState exampleValidatingHandler "").trace ++
          [HandlerCall.GetRequest () exampleModels.zeroReports "/mms/1/reports" params] ∧
      (("b-1" : String) ≠ "" → params.lookup "bulkId" = some "b-1") ∧
      (("m-1" : String) ≠ "" → params.lookup "messageId" = some "m-1") ∧
      (("10" : String) ≠ "" → params.lookup "limit" = some "10") ∧
      ∀ k, k ∈ params.keys → k = "bulkId" ∨ k = "messageId" ∨ k = "limit" :=
  ⟨by decide, by decide, by decide,
    GetOutboundMsgDeliveryReports_params_verbatim exampleModels
      (exampleState exampleValidatingHandler "") ()
      { BulkID := "b-1", MessageID := "m-1", Limit := "10" }⟩

/-- C9: the message passed to `SendMsg` is copied into the method's own
parameter variable.  For every handler, also one that writes through the
request pointer, every variable of type `MMSMsg` that existed before the call
(in particular the caller's, at address `a`, holding the message passed) has
the same value after the call, and the channel's `ReqHandler` field is
unchanged. -/
theorem SendMsg_leaves_caller_msg_and_handler (M : Models) (s : State M) (ctx : M.Ctx)
    (msg : M.MMSMsg) (a : Nat) (ha : a < s.next) (hmsg : s.msgVars a = msg) :
    (Channel.SendMsg s ctx msg).state.msgVars a = msg ∧
    (∀ b, b < s.next → (Channel.SendMsg s ctx msg).state.msgVars b = s.msgVars b) ∧
    (Channel.SendMsg s ctx msg).state.channel.ReqHandler = s.channel.ReqHandler := by
  have frame : ∀ b, b < s.next →
      (Channel.SendMsg s ctx msg).state.msgVars b = s.msgVars b := by
    intro b hb
    have hne : b ≠ s.next := Nat.ne_of_lt hb
    simp [Channel.SendMsg, State.callPostMultipartReq, Function.update_noteq hne]
  exact ⟨(frame a ha).trans hmsg, frame, rfl⟩

/-- Witness of C9: a handler that overwrites the request it is pointed to; the
caller's variable (address 0) keeps the message, the overwrite lands in the
parameter variable of the call (address 1). -/
theorem SendMsg_leaves_caller_msg_and_handler_witness :
    (0 : Nat) < (exampleState exampleScribblingHandler "hello").next ∧
    (exampleState exampleScribblingHandler "hello").msgVars 0 = "hello" ∧
    (Channel.SendMsg (exampleState exampleScribblingHandler "hello") () "hello").state.msgVars 1 =
      "overwritten" ∧
    (Channel.SendMsg (exampleState exampleScribblingHandler "hello") () "hello").state.msgVars 0 =
      "hello" :=
  ⟨by decide, rfl, rfl,
    (SendMsg_leaves_caller_msg_and_handler exampleModels
      (exampleState exampleScribblingHandler "hello") () "hello" 0 (by decide) rfl).1⟩

/-! ## Theorems: the channels around the Request Handler of the specification -/

/-- A classification that ends in a hard error leaves the container as it was
and returns empty Response Details. -/
theorem classify_error_empty {Err Resp : Type} (unmarshal : String → Resp → Except Err Resp)
    (unmarshalError : String → ErrorDetails → Except Err ErrorDetails)
    (reply : HTTPReply) (r : Resp)
    (herr : (classify unmarshal unmarshalError reply r).2.2 ≠ none) :
    (classify unmarshal unmarshalError reply r).1 = r ∧
    (classify unmarshal unmarshalError reply r).2.1 = default := by
  unfold classify at herr ⊢
  split
  · split
    · rename_i h1 _ _ h2
      simp [h1, h2] at herr
    · exact ⟨rfl, rfl⟩
  · split
    · rename_i h1 _ _ h2
      simp [h1, h2] at herr
    · exact ⟨rfl, rfl⟩

/-- A dispatch that ends in a hard error leaves the container as it was and
returns empty Response Details. -/
theorem dispatch_error_empty {Ctx Err World Resp : Type} (h : httpHandler Ctx Err World)
    (unmarshal : String → Resp → Except Err Resp)
    (unmarshalError : String → ErrorDetails → Except Err ErrorDetails)
    (ctx : Ctx) (req : HTTPRequest) (r : Resp) (w : World)
    (herr : (h.dispatch unmarshal unmarshalError ctx req r w).err ≠ none) :
    (h.dispatch unmarshal unmarshalError ctx req r w).respResource = r ∧
    (h.dispatch unmarshal unmarshalError ctx req r w).respDetails = default := by
  unfold httpHandler.dispatch at herr ⊢
  split
  · exact ⟨rfl, rfl⟩
  · rename_i reply w1 hc
    simp only [hc] at herr
    exact classify_error_empty unmarshal unmarshalError reply r herr

/-- A dispatch whose network call completes with a reply in the success range
and a decodable body: no error, the decoded body in the container, the
reply's metadata and empty error details in the Response Details. -/
theorem dispatch_success {Ctx Err World Resp : Type} (h : httpHandler Ctx Err World)
    (unmarshal : String → Resp → Except Err Resp)
    (unmarshalError : String → ErrorDetails → Except Err ErrorDetails)
    (ctx : Ctx) (req : HTTPRequest) (r r1 : Resp) (w w1 : World) (reply : HTTPReply)
    (hcall : h.httpClient ctx req w = (Except.ok reply, w1))
    (hstatus : 200 ≤ reply.response.StatusCode ∧ reply.response.StatusCode ≤ 299)
    (hbody : unmarshal reply.body r = Except.ok r1) :
    h.dispatch unmarshal unmarshalError ctx req r w =
      { respResource := r1,
        respDetails := { HTTPResponse := reply.response, ErrorResponse := default },
        err := none, world := w1 } := by
  have hs : isSuccess reply.response.StatusCode = true := by
    simp [isSuccess, hstatus.1, hstatus.2]
  simp [httpHandler.dispatch, hcall, classify, hs, hbody]

/-- A dispatch whose network call completes with a reply outside the success
range and a decodable error body: no error, the container untouched, the
reply's metadata and the decoded error details in the Response Details. -/
theorem dispatch_api_error {Ctx Err World Resp : Type} (h : httpHandler Ctx Err World)
    (unmarshal : String → Resp → Except Err Resp)
    (unmarshalError : String → ErrorDetails → Except Err ErrorDetails)
    (ctx : Ctx) (req : HTTPRequest) (r : Resp) (w w1 : World) (reply : HTTPReply)
    (d : ErrorDetails)
    (hcall : h.httpClient ctx req w = (Except.ok reply, w1))
    (hstatus : reply.response.StatusCode < 200 ∨ 299 < reply.response.StatusCode)
    (hbody : unmarshalError reply.body default = Except.ok d) :
    h.dispatch unmarshal unmarshalError ctx req r w =
      { respResource := r,
        respDetails := { HTTPResponse := reply.response, ErrorResponse := d },
        err := none, world := w1 } := by
  have hs : isSuccess reply.response.StatusCode = false := by
    rcases hstatus with hlt | hgt
    · simp [isSuccess, hlt]
    · simp [isSuccess, hgt]
  simp [httpHandler.dispatch, hcall, classify, hs, hbody]

/-- C6: around the Request Handler of the specification, a call of
`SendMsg`, of `GetOutboundMsgDeliveryReports` or of `SendContactMessage` that
returns a non-nil error returns the zero Response Model and the zero Response
Details. -/
theorem error_returns_zero_results (M : Models) (h : httpHandler M.Ctx M.Err M.World)
    (wire : MMSWire M) (s : State M) (hs : s.channel.ReqHandler = h.forMMS wire)
    (ctx : M.Ctx) (msg : M.MMSMsg) (opts : OutboundMsgDeliveryReportsOpts)
    {Ctx Err World Msg Resp : Type} (whatsApp : whatsAppChannel Ctx Err World)
    (cwire : ContactWire Err Msg Resp) (cctx : Ctx) (cmsg : Msg) (w : World) :
    ((Channel.SendMsg s ctx msg).err ≠ none →
      (Channel.SendMsg s ctx msg).msgResp = M.zeroMMSResponse ∧
      (Channel.SendMsg s ctx msg).respDetails = default) ∧
    ((Channel.GetOutboundMsgDeliveryReports s ctx opts).err ≠ none →
      (Channel.GetOutboundMsgDeliveryReports s ctx opts).msgResp = M.zeroReports ∧
      (Channel.GetOutboundMsgDeliveryReports s ctx opts).respDetails = default) ∧
    ((whatsApp.SendContactMessage cwire cctx cmsg w).err ≠ none →
      (whatsApp.SendContactMessage cwire cctx cmsg w).respResource = cwire.zeroResponse ∧
      (whatsApp.SendContactMessage cwire cctx cmsg w).respDetails = default) := by
  refine ⟨?_, ?_, ?_⟩
  · simp only [Channel.SendMsg, State.callPostMultipartReq, hs, httpHandler.forMMS,
      httpHandler.postMultipartReq, Function.update_same]
    split
    · intro _
      exact ⟨rfl, rfl⟩
    · intro herr
      exact dispatch_error_empty h _ _ ctx _ _ _ herr
  · simp only [Channel.GetOutboundMsgDeliveryReports, State.callGetRequest, hs,
      httpHandler.forMMS, httpHandler.getRequest]
    intro herr
    exact dispatch_error_empty h _ _ ctx _ _ _ herr
  · unfold whatsAppChannel.SendContactMessage
    split
    · intro _
      exact ⟨rfl, rfl⟩
    · unfold httpHandler.postJSONReq
      split
      · intro _
        exact ⟨rfl, rfl⟩
      · intro herr
        exact dispatch_error_empty whatsApp.reqHandler _ _ cctx _ _ _ herr

/-- Witness of C6: the network call cannot complete (MMS send), and a contact
message fails validation (WhatsApp send). -/
theorem error_returns_zero_results_witness :
    (Channel.SendMsg (exampleSpecState exampleDeadClient) () "hello").err ≠ none ∧
    ((Channel.SendMsg (exampleSpecState exampleDeadClient) () "hello").msgResp =
        exampleModels.zeroMMSResponse ∧
      (Channel.SendMsg (exampleSpecState exampleDeadClient) () "hello").respDetails = default) ∧
    (whatsAppChannel.SendContactMessage
        { reqHandler := exampleHTTPHandler exampleDeadClient } exampleContactWire () ""
        (0 : Nat)).err ≠ none ∧
    ((whatsAppChannel.SendContactMessage
        { reqHandler := exampleHTTPHandler exampleDeadClient } exampleContactWire () ""
        (0 : Nat)).respResource = exampleContactWire.zeroResponse ∧
      (whatsAppChannel.SendContactMessage
        { reqHandler := exampleHTTPHandler exampleDeadClient } exampleContactWire () ""
        (0 : Nat)).respDetails = default) :=
  have key := error_returns_zero_results exampleModels (exampleHTTPHandler exampleDeadClient)
    exampleMMSWire (exampleSpecState exampleDeadClient) rfl () "hello"
    { BulkID := "", MessageID := "", Limit := "" }
    { reqHandler := exampleHTTPHandler exampleDeadClient } exampleContactWire () ""
    (0 : Nat)
  have h1 : (Channel.SendMsg (exampleSpecState exampleDeadClient) () "hello").err ≠ none :=
    fun hn => Option.noConfusion hn
  have h3 : (whatsAppChannel.SendContactMessage
      { reqHandler := exampleHTTPHandler exampleDeadClient } exampleContactWire () ""
      (0 : Nat)).err ≠ none := fun hn => Option.noConfusion hn
  ⟨h1, key.1 h1, h3, key.2.2 h3⟩

/-- C7: around the Request Handler of the specification, a send of a valid
message that the endpoint answers with a status in 200-299 and a decodable
body returns a nil error, the decoding of the body as Response Model, the
reply's status code in the Response Details and empty Error Details; for the
JSON send of the WhatsApp channel and for the multipart send of the MMS
channel. -/
theorem send_success_reply {Ctx Err World Msg Resp : Type}
    (whatsApp : whatsAppChannel Ctx Err World) (cwire : ContactWire Err Msg Resp) (cctx : Ctx)
    (cmsg : Msg) (w w1 : World) (cpayload : String) (creply : HTTPReply) (cresp : Resp)
    (M : Models) (h : httpHandler M.Ctx M.Err M.World) (wire : MMSWire M) (s : State M)
    (ctx : M.Ctx) (msg : M.MMSMsg) (v1 : M.World) (payload : String) (reply : HTTPReply)
    (resp : M.MMSResponse) :
    (cwire.validate cmsg = none →
      cwire.codec.marshal cmsg = Except.ok cpayload →
      whatsApp.reqHandler.httpClient cctx
        (whatsApp.reqHandler.jsonRequest cwire.sendContactPath cpayload) w =
          (Except.ok creply, w1) →
      (200 ≤ creply.response.StatusCode ∧ creply.response.StatusCode ≤ 299) →
      cwire.codec.unmarshal creply.body cwire.zeroResponse = Except.ok cresp →
        (whatsApp.SendContactMessage cwire cctx cmsg w).err = none ∧
        (whatsApp.SendContactMessage cwire cctx cmsg w).respResource = cresp ∧
        (whatsApp.SendContactMessage cwire cctx cmsg w).respDetails.HTTPResponse.StatusCode =
          creply.response.StatusCode ∧
        (whatsApp.SendContactMessage cwire cctx cmsg w).respDetails.ErrorResponse = default) ∧
    (s.channel.ReqHandler = h.forMMS wire →
      wire.msg.marshal msg = Except.ok payload →
      h.httpClient ctx (h.multipartRequest "/mms/1/single" payload) s.world =
          (Except.ok reply, v1) →
      (200 ≤ reply.response.StatusCode ∧ reply.response.StatusCode ≤ 299) →
      wire.msg.unmarshal reply.body M.zeroMMSResponse = Except.ok resp →
        (Channel.SendMsg s ctx msg).err = none ∧
        (Channel.SendMsg s ctx msg).msgResp = resp ∧
        (Channel.SendMsg s ctx msg).respDetails.HTTPResponse.StatusCode =
          reply.response.StatusCode ∧
        (Channel.SendMsg s ctx msg).respDetails.ErrorResponse = default) := by
  constructor
  · intro hvalid hmarshal hcall hstatus hbody
    have hd := dispatch_success whatsApp.reqHandler cwire.codec.unmarshal cwire.unmarshalError
      cctx _ cwire.zeroResponse cresp w w1 creply hcall hstatus hbody
    simp [whatsAppChannel.SendContactMessage, hvalid, httpHandler.postJSONReq, hmarshal, hd]
  · intro hs hmarshal hcall hstatus hbody
    have hd := dispatch_success h wire.msg.unmarshal wire.unmarshalError
      ctx _ M.zeroMMSResponse resp s.world v1 reply hcall hstatus hbody
    simp [Channel.SendMsg, State.callPostMultipartReq, hs, httpHandler.forMMS,
      httpHandler.postMultipartReq, hmarshal, sendMessagePath, hd]

/-- Witness of C7: the endpoint answers 200 with the body "PENDING_ENROUTE". -/
theorem send_success_reply_witness :
    ((whatsAppChannel.SendContactMessage
        { reqHandler := exampleHTTPHandler (exampleClient 200 "PENDING_ENROUTE") }
        exampleContactWire () "Mr. John Smith" (0 : Nat)).err = none ∧
      (whatsAppChannel.SendContactMessage
        { reqHandler := exampleHTTPHandler (exampleClient 200 "PENDING_ENROUTE") }
        exampleContactWire () "Mr. John Smith" (0 : Nat)).respResource = "PENDING_ENROUTE" ∧
      (whatsAppChannel.SendContactMessage
        { reqHandler := exampleHTTPHandler (exampleClient 200 "PENDING_ENROUTE") }
        exampleContactWire () "Mr. John Smith" (0 : Nat)).respDetails.HTTPResponse.StatusCode =
          200 ∧
      (whatsAppChannel.SendContactMessage
        { reqHandler := exampleHTTPHandler (exampleClient 200 "PENDING_ENROUTE") }
        exampleContactWire () "Mr. John Smith" (0 : Nat)).respDetails.ErrorResponse =
          default) ∧
    ((Channel.SendMsg (exampleSpecState (exampleClient 200 "PENDING_ENROUTE")) () "hello").err =
        none ∧
      (Channel.SendMsg (exampleSpecState (exampleClient 200 "PENDING_ENROUTE")) ()
        "hello").msgResp = "PENDING_ENROUTE" ∧
      (Channel.SendMsg (exampleSpecState (exampleClient 200 "PENDING_ENROUTE")) ()
        "hello").respDetails.HTTPResponse.StatusCode = 200 ∧
      (Channel.SendMsg (exampleSpecState (exampleClient 200 "PENDING_ENROUTE")) ()
        "hello").respDetails.ErrorResponse = default) :=
  have key := send_success_reply
    { reqHandler := exampleHTTPHandler (exampleClient 200 "PENDING_ENROUTE") }
    exampleContactWire () "Mr. John Smith" (0 : Nat) (1 : Nat) "Mr. John Smith"
    { response := { StatusCode := 200, Header := [] }, body := "PENDING_ENROUTE" }
    "PENDING_ENROUTE"
    exampleModels (exampleHTTPHandler (exampleClient 200 "PENDING_ENROUTE")) exampleMMSWire
    (exampleSpecState (exampleClient 200 "PENDING_ENROUTE")) () "hello" (1 : Nat) "hello"
    { response := { StatusCode := 200, Header := [] }, body := "PENDING_ENROUTE" }
    "PENDING_ENROUTE"
  ⟨key.1 rfl rfl rfl ⟨by decide, by decide⟩ rfl, key.2 rfl rfl rfl ⟨by decide, by decide⟩ rfl⟩

/-- C8: around the Request Handler of the specification, a send of a valid
message that the endpoint answers with a status outside 200-299 and a
decodable error body returns a nil error, the zero Response Model, the
decoding of the body as Error Details and the reply's status code in the
Response Details; for the JSON send of the WhatsApp channel and for the
multipart send of the MMS channel. -/
theorem send_api_error_reply {Ctx Err World Msg Resp : Type}
    (whatsApp : whatsAppChannel Ctx Err World) (cwire : ContactWire Err Msg Resp) (cctx : Ctx)
    (cmsg : Msg) (w w1 : World) (cpayload : String) (creply : HTTPReply) (cdetails : ErrorDetails)
    (M : Models) (h : httpHandler M.Ctx M.Err M.World) (wire : MMSWire M) (s : State M)
    (ctx : M.Ctx) (msg : M.MMSMsg) (v1 : M.World) (payload : String) (reply : HTTPReply)
    (details : ErrorDetails) :
    (cwire.validate cmsg = none →
      cwire.codec.marshal cmsg = Except.ok cpayload →
      whatsApp.reqHandler.httpClient cctx
        (whatsApp.reqHandler.jsonRequest cwire.sendContactPath cpayload) w =
          (Except.ok creply, w1) →
      (creply.response.StatusCode < 200 ∨ 299 < creply.response.StatusCode) →
      cwire.unmarshalError creply.body default = Except.ok cdetails →
        (whatsApp.SendContactMessage cwire cctx cmsg w).err = none ∧
        (whatsApp.SendContactMessage cwire cctx cmsg w).respResource = cwire.zeroResponse ∧
        (whatsApp.SendContactMessage cwire cctx cmsg w).respDetails.ErrorResponse = cdetails ∧
        (whatsApp.SendContactMessage cwire cctx cmsg w).respDetails.HTTPResponse.StatusCode =
          creply.response.StatusCode) ∧
    (s.channel.ReqHandler = h.forMMS wire →
      wire.msg.marshal msg = Except.ok payload →
      h.httpClient ctx (h.multipartRequest "/mms/1/single" payload) s.world =
          (Except.ok reply, v1) →
      (reply.response.StatusCode < 200 ∨ 299 < reply.response.StatusCode) →
      wire.unmarshalError reply.body default = Except.ok details →
        (Channel.SendMsg s ctx msg).err = none ∧
        (Channel.SendMsg s ctx msg).msgResp = M.zeroMMSResponse ∧
        (Channel.SendMsg s ctx msg).respDetails.ErrorResponse = details ∧
        (Channel.SendMsg s ctx msg).respDetails.HTTPResponse.StatusCode =
          reply.response.StatusCode) := by
  constructor
  · intro hvalid hmarshal hcall hstatus hbody
    have hd := dispatch_api_error whatsApp.reqHandler cwire.codec.unmarshal cwire.unmarshalError
      cctx _ cwire.zeroResponse w w1 creply cdetails hcall hstatus hbody
    simp [whatsAppChannel.SendContactMessage, hvalid, httpHandler.postJSONReq, hmarshal, hd]
  · intro hs hmarshal hcall hstatus hbody
    have hd := dispatch_api_error h wire.msg.unmarshal wire.unmarshalError
      ctx _ M.zeroMMSResponse s.world v1 reply details hcall hstatus hbody
    simp [Channel.SendMsg, State.callPostMultipartReq, hs, httpHandler.forMMS,
      httpHandler.postMultipartReq, hmarshal, sendMessagePath, hd]

/-- Witness of C8: the endpoint answers 401 with the body "Invalid login
details". -/
theorem send_api_error_reply_witness :
    ((whatsAppChannel.SendContactMessage
        { reqHandler := exampleHTTPHandler (exampleClient 401 "Invalid login details") }
        exampleContactWire () "Mr. John Smith" (0 : Nat)).err = none ∧
      (whatsAppChannel.SendContactMessage
        { reqHandler := exampleHTTPHandler (exampleClient 401 "Invalid login details") }
        exampleContactWire () "Mr. John Smith" (0 : Nat)).respResource =
          exampleContactWire.zeroResponse ∧
      (whatsAppChannel.SendContactMessage
        { reqHandler := exampleHTTPHandler (exampleClient 401 "Invalid login details") }
        exampleContactWire () "Mr. John Smith" (0 : Nat)).respDetails.ErrorResponse =
          { ServiceException := { MessageID := "BAD_REQUEST", Text := "Invalid login details",
                                  ValidationErrors := [] } } ∧
      (whatsAppChannel.SendContactMessage
        { reqHandler := exampleHTTPHandler (exampleClient 401 "Invalid login details") }
        exampleContactWire () "Mr. John Smith" (0 : Nat)).respDetails.HTTPResponse.StatusCode =
          401) ∧
    ((Channel.SendMsg (exampleSpecState (exampleClient 401 "Invalid login details")) ()
        "hello").err = none ∧
      (Channel.SendMsg (exampleSpecState (exampleClient 401 "Invalid login details")) ()
        "hello").msgResp = exampleModels.zeroMMSResponse ∧
      (Channel.SendMsg (exampleSpecState (exampleClient 401 "Invalid login details")) ()
        "hello").respDetails.ErrorResponse =
          { ServiceException := { MessageID := "BAD_REQUEST", Text := "Invalid login details",
                                  ValidationErrors := [] } } ∧
      (Channel.SendMsg (exampleSpecState (exampleClient 401 "Invalid login details")) ()
        "hello").respDetails.HTTPResponse.StatusCode = 401) :=
  have key := send_api_error_reply
    { reqHandler := exampleHTTPHandler (exampleClient 401 "Invalid login details") }
    exampleContactWire () "Mr. John Smith" (0 : Nat) (1 : Nat) "Mr. John Smith"
    { response := { StatusCode := 401, Header := [] }, body := "Invalid login details" }
    { ServiceException := { MessageID := "BAD_REQUEST", Text := "Invalid login details",
                            ValidationErrors := [] } }
    exampleModels (exampleHTTPHandler (exampleClient 401 "Invalid login details"))
    exampleMMSWire (exampleSpecState (exampleClient 401 "Invalid login details")) () "hello"
    (1 : Nat) "hello"
    { response := { StatusCode := 401, Header := [] }, body := "Invalid login details" }
    { ServiceException := { MessageID := "BAD_REQUEST", Text := "Invalid login details",
                            ValidationErrors := [] } }
  ⟨key.1 rfl rfl rfl (Or.inr (by decide)) rfl, key.2 rfl rfl rfl (Or.inr (by decide)) rfl⟩

end Infobip
